import Mathlib

/-!
Verification of the pysqream DB-API driver (`src/pysqream/dbapi.py`) against its
natural-language specification.

The Python source is shallowly embedded: Python's arbitrary-precision integers
become `Int`; Python floor division `//` and `%` with the positive literal
divisors used throughout the source coincide with Lean's `Int` `/` and `%`
(Euclidean division), so those operators are carried over directly.  Bit
operations on the nonnegative packed values are written with explicit
arithmetic (`x >> 32` as `x / 2^32`, `x & 0xffffffff` as `x % 2^32`).
Byte buffers are `List Nat` (each element a byte value), fallible code
returns `Except String`, and the stateful fetch path is modelled by explicit
state passing over a connection record plus an oracle of the batches the
server would return.
-/

/-! ## Calendar codec (dbapi.py lines 88-146)

`date_tuple_to_int` / `sq_date_to_tuple` and `datetime_tuple_to_long` /
`sq_datetime_to_tuple` are pure integer functions and are transcribed
directly.  The source's `sq_date_to_tuple` rebinds `year` and `intermed_2`
inside a single `if intermed_2 < 0` block; here the two rebindings are two
shadowing `let`s guarded by the same condition. -/

def date_tuple_to_int (year month day : Int) : Int :=
  let mth : Int := (month + 9) % 12
  let yr : Int := year - mth / 10
  365 * yr + yr / 4 - yr / 100 + yr / 400 + (mth * 306 + 5) / 10 + (day - 1)

def sq_date_to_tuple (sqream_date : Int) : Int × Int × Int :=
  let year := (10000 * sqream_date + 14780) / 3652425
  let intermed_1 := 365 * year + year / 4 - year / 100 + year / 400
  let intermed_2 := sqream_date - intermed_1
  let year := if sqream_date - intermed_1 < 0 then year - 1 else year
  let intermed_2 :=
    if sqream_date - intermed_1 < 0 then
      sqream_date - (365 * year + year / 4 - year / 100 + year / 400)
    else intermed_2
  let intermed_3 := (100 * intermed_2 + 52) / 3060
  let year := year + (intermed_3 + 2) / 12
  let month := (intermed_3 + 2) % 12 + 1
  let day := intermed_2 - (intermed_3 * 306 + 5) / 10 + 1
  (year, month, day)

def datetime_tuple_to_long (year month day hour minute second : Int)
    (msecond : Int := 0) : Int :=
  let mth : Int := (month + 9) % 12
  let yr : Int := year - mth / 10
  let date_int : Int := 365 * yr + yr / 4 - yr / 100 + yr / 400 + (mth * 306 + 5) / 10 + (day - 1)
  let time_int : Int := hour * 3600 * 1000 + minute * 60 * 1000 + second * 1000 + msecond / 1000
  date_int * 4294967296 + time_int

def sq_datetime_to_tuple (sqream_datetime : Int) :
    Int × Int × Int × Int × Int × Int × Int :=
  let date_part := sqream_datetime / 4294967296
  let time_part := sqream_datetime % 4294967296
  let dateTup := sq_date_to_tuple date_part
  let msec := time_part % 1000
  let sec := time_part / 1000 % 60
  let mins := time_part / 1000 / 60 % 60
  let hour := time_part / 1000 / 60 / 60
  (dateTup.1, dateTup.2.1, dateTup.2.2, hour, mins, sec, msec)

/-! Spec-side validity of a Gregorian date (the claims quantify over "valid
Gregorian dates", which the source leaves to Python's `datetime.date`). -/

def isLeapYear (y : Int) : Bool :=
  y % 4 == 0 && (y % 100 != 0 || y % 400 == 0)

def daysInMonth (y m : Int) : Int :=
  if m = 2 then (if isLeapYear y then 29 else 28)
  else if m = 4 ∨ m = 6 ∨ m = 9 ∨ m = 11 then 30
  else 31

def validDate (y m d : Int) : Prop :=
  1 ≤ y ∧ y ≤ 9999 ∧ 1 ≤ m ∧ m ≤ 12 ∧ 1 ≤ d ∧ d ≤ daysInMonth y m

instance (y m d : Int) : Decidable (validDate y m d) := by
  unfold validDate; infer_instance

/-! Helper lemmas for the round-trip proof.  The decoded "shifted year"
(March-first calendar) is recovered from the day count by the `/ 3652425`
guess plus a single downward correction; the month by the `/ 3060` guess. -/

set_option maxHeartbeats 1000000 in
theorem year_bound (yr doy : Int) (h3 : 0 ≤ doy) (h4 : doy ≤ 365) :
    yr ≤ (10000 * (365 * yr + yr / 4 - yr / 100 + yr / 400 + doy) + 14780) / 3652425 ∧
    (10000 * (365 * yr + yr / 4 - yr / 100 + yr / 400 + doy) + 14780) / 3652425 ≤ yr + 1 := by
  omega

set_option maxHeartbeats 1000000 in
theorem month_recover (mth doy : Int) (h0 : 0 ≤ mth) (h1 : mth ≤ 11)
    (h2 : (mth * 306 + 5) / 10 ≤ doy)
    (h3 : doy < ((mth + 1) * 306 + 5) / 10 ∨ (mth = 11 ∧ doy ≤ 365)) :
    (100 * doy + 52) / 3060 = mth := by
  omega

set_option maxHeartbeats 1000000 in
theorem year_len_bits (yr : Int) :
    0 ≤ ((yr + 1) / 4 - yr / 4) - ((yr + 1) / 100 - yr / 100)
      + ((yr + 1) / 400 - yr / 400) ∧
    ((yr + 1) / 4 - yr / 4) - ((yr + 1) / 100 - yr / 100)
      + ((yr + 1) / 400 - yr / 400) ≤ 1 := by
  omega

set_option maxHeartbeats 1000000 in
theorem leap_bits_one (y : Int) (h4 : y % 4 = 0) (hor : y % 100 ≠ 0 ∨ y % 400 = 0) :
    (y / 4 - (y - 1) / 4) - (y / 100 - (y - 1) / 100) + (y / 400 - (y - 1) / 400) = 1 := by
  omega

set_option maxHeartbeats 1000000 in
theorem y0_up (yr doy n y0 : Int)
    (hn : n = 365 * yr + yr / 4 - yr / 100 + yr / 400 + doy)
    (hdoy : 0 ≤ doy)
    (hyb : yr ≤ y0 ∧ y0 ≤ yr + 1)
    (hneg : n - (365 * y0 + y0 / 4 - y0 / 100 + y0 / 400) < 0) :
    y0 = yr + 1 := by
  omega

set_option maxHeartbeats 1000000 in
theorem y0_down (yr doy n y0 : Int)
    (hn : n = 365 * yr + yr / 4 - yr / 100 + yr / 400 + doy)
    (h5 : doy ≤ 364 + ((yr + 1) / 4 - yr / 4) - ((yr + 1) / 100 - yr / 100)
      + ((yr + 1) / 400 - yr / 400))
    (hyb : yr ≤ y0 ∧ y0 ≤ yr + 1)
    (hneg : ¬ n - (365 * y0 + y0 / 4 - y0 / 100 + y0 / 400) < 0) :
    y0 = yr := by
  omega

set_option maxHeartbeats 2000000 in
theorem decode_core (yr doy mth : Int)
    (hmthA : 0 ≤ mth) (hmthB : mth ≤ 11)
    (h3 : (mth * 306 + 5) / 10 ≤ doy)
    (h4 : doy < ((mth + 1) * 306 + 5) / 10 ∨ (mth = 11 ∧ doy ≤ 365))
    (h5 : doy ≤ 364 + ((yr + 1) / 4 - yr / 4) - ((yr + 1) / 100 - yr / 100)
      + ((yr + 1) / 400 - yr / 400)) :
    sq_date_to_tuple (365 * yr + yr / 4 - yr / 100 + yr / 400 + doy)
      = (yr + (mth + 2) / 12, (mth + 2) % 12 + 1, doy - (mth * 306 + 5) / 10 + 1) := by
  have hdoy0 : 0 ≤ doy := by omega
  have hdoy365 : doy ≤ 365 := by
    have := year_len_bits yr
    omega
  have hi3 : (100 * doy + 52) / 3060 = mth := month_recover mth doy hmthA hmthB h3 h4
  have hyb := year_bound yr doy hdoy0 hdoy365
  simp only [sq_date_to_tuple]
  split_ifs with hneg
  · -- corrected branch: the raw year guess overshot by one
    have hy0 := y0_up yr doy _ _ rfl hdoy0 hyb hneg
    rw [hy0]
    rw [show yr + 1 - 1 = yr from by ring]
    rw [show 365 * yr + yr / 4 - yr / 100 + yr / 400 + doy
        - (365 * yr + yr / 4 - yr / 100 + yr / 400) = doy from by ring]
    rw [hi3]
  · -- no correction: the raw year guess was exact
    have hy0 := y0_down yr doy _ _ rfl h5 hyb hneg
    rw [hy0]
    rw [show 365 * yr + yr / 4 - yr / 100 + yr / 400 + doy
        - (365 * yr + yr / 4 - yr / 100 + yr / 400) = doy from by ring]
    rw [hi3]
set_option maxHeartbeats 1000000 in
theorem date_roundtrip (y m d : Int) (h : validDate y m d) :
    sq_date_to_tuple (date_tuple_to_int y m d) = (y, m, d) := by
  obtain ⟨hy1, hy2, hm1, hm2, hd1, hd2⟩ := h
  interval_cases m
  · -- month 1
    norm_num [daysInMonth] at hd2
    have hf : date_tuple_to_int y 1 d
        = 365 * (y - 1) + (y - 1) / 4 - (y - 1) / 100 + (y - 1) / 400 + (306 + d - 1) := by
      simp only [date_tuple_to_int]; omega
    have h5 : 306 + d - 1 ≤ 364 + (((y - 1) + 1) / 4 - (y - 1) / 4)
        - (((y - 1) + 1) / 100 - (y - 1) / 100) + (((y - 1) + 1) / 400 - (y - 1) / 400) := by
      have := year_len_bits (y - 1)
      omega
    rw [hf, decode_core (y - 1) (306 + d - 1) 10 (by norm_num) (by norm_num) (by omega)
        (Or.inl (by omega)) h5]
    rw [Prod.mk.injEq, Prod.mk.injEq]
    exact ⟨by omega, by omega, by omega⟩
  · -- february
    norm_num [daysInMonth] at hd2
    have hf : date_tuple_to_int y 2 d
        = 365 * (y - 1) + (y - 1) / 4 - (y - 1) / 100 + (y - 1) / 400 + (337 + d - 1) := by
      simp only [date_tuple_to_int]; omega
    have hd29 : d ≤ 29 := by split_ifs at hd2 <;> omega
    have h5 : 337 + d - 1 ≤ 364 + ((y - 1 + 1) / 4 - (y - 1) / 4)
        - ((y - 1 + 1) / 100 - (y - 1) / 100) + ((y - 1 + 1) / 400 - (y - 1) / 400) := by
      by_cases hl : isLeapYear y = true
      · rw [if_pos hl] at hd2
        simp only [isLeapYear, Bool.and_eq_true, beq_iff_eq, Bool.or_eq_true, bne_iff_ne,
          ne_eq] at hl
        have := leap_bits_one y hl.1 hl.2
        omega
      · rw [if_neg hl] at hd2
        have := year_len_bits (y - 1)
        omega
    rw [hf, decode_core (y - 1) (337 + d - 1) 11 (by norm_num) (by norm_num) (by omega)
        (Or.inr ⟨rfl, by omega⟩) h5]
    rw [Prod.mk.injEq, Prod.mk.injEq]
    exact ⟨by omega, by omega, by omega⟩
  · -- month 3
    norm_num [daysInMonth] at hd2
    have hf : date_tuple_to_int y 3 d
        = 365 * y + y / 4 - y / 100 + y / 400 + (0 + d - 1) := by
      simp only [date_tuple_to_int]; omega
    have h5 : 0 + d - 1 ≤ 364 + ((y + 1) / 4 - y / 4)
        - ((y + 1) / 100 - y / 100) + ((y + 1) / 400 - y / 400) := by
      have := year_len_bits y
      omega
    rw [hf, decode_core y (0 + d - 1) 0 (by norm_num) (by norm_num) (by omega)
        (Or.inl (by omega)) h5]
    rw [Prod.mk.injEq, Prod.mk.injEq]
    exact ⟨by omega, by omega, by omega⟩
  · -- month 4
    norm_num [daysInMonth] at hd2
    have hf : date_tuple_to_int y 4 d
        = 365 * y + y / 4 - y / 100 + y / 400 + (31 + d - 1) := by
      simp only [date_tuple_to_int]; omega
    have h5 : 31 + d - 1 ≤ 364 + ((y + 1) / 4 - y / 4)
        - ((y + 1) / 100 - y / 100) + ((y + 1) / 400 - y / 400) := by
      have := year_len_bits y
      omega
    rw [hf, decode_core y (31 + d - 1) 1 (by norm_num) (by norm_num) (by omega)
        (Or.inl (by omega)) h5]
    rw [Prod.mk.injEq, Prod.mk.injEq]
    exact ⟨by omega, by omega, by omega⟩
  · -- month 5
    norm_num [daysInMonth] at hd2
    have hf : date_tuple_to_int y 5 d
        = 365 * y + y / 4 - y / 100 + y / 400 + (61 + d - 1) := by
      simp only [date_tuple_to_int]; omega
    have h5 : 61 + d - 1 ≤ 364 + ((y + 1) / 4 - y / 4)
        - ((y + 1) / 100 - y / 100) + ((y + 1) / 400 - y / 400) := by
      have := year_len_bits y
      omega
    rw [hf, decode_core y (61 + d - 1) 2 (by norm_num) (by norm_num) (by omega)
        (Or.inl (by omega)) h5]
    rw [Prod.mk.injEq, Prod.mk.injEq]
    exact ⟨by omega, by omega, by omega⟩
  · -- month 6
    norm_num [daysInMonth] at hd2
    have hf : date_tuple_to_int y 6 d
        = 365 * y + y / 4 - y / 100 + y / 400 + (92 + d - 1) := by
      simp only [date_tuple_to_int]; omega
    have h5 : 92 + d - 1 ≤ 364 + ((y + 1) / 4 - y / 4)
        - ((y + 1) / 100 - y / 100) + ((y + 1) / 400 - y / 400) := by
      have := year_len_bits y
      omega
    rw [hf, decode_core y (92 + d - 1) 3 (by norm_num) (by norm_num) (by omega)
        (Or.inl (by omega)) h5]
    rw [Prod.mk.injEq, Prod.mk.injEq]
    exact ⟨by omega, by omega, by omega⟩
  · -- month 7
    norm_num [daysInMonth] at hd2
    have hf : date_tuple_to_int y 7 d
        = 365 * y + y / 4 - y / 100 + y / 400 + (122 + d - 1) := by
      simp only [date_tuple_to_int]; omega
    have h5 : 122 + d - 1 ≤ 364 + ((y + 1) / 4 - y / 4)
        - ((y + 1) / 100 - y / 100) + ((y + 1) / 400 - y / 400) := by
      have := year_len_bits y
      omega
    rw [hf, decode_core y (122 + d - 1) 4 (by norm_num) (by norm_num) (by omega)
        (Or.inl (by omega)) h5]
    rw [Prod.mk.injEq, Prod.mk.injEq]
    exact ⟨by omega, by omega, by omega⟩
  · -- month 8
    norm_num [daysInMonth] at hd2
    have hf : date_tuple_to_int y 8 d
        = 365 * y + y / 4 - y / 100 + y / 400 + (153 + d - 1) := by
      simp only [date_tuple_to_int]; omega
    have h5 : 153 + d - 1 ≤ 364 + ((y + 1) / 4 - y / 4)
        - ((y + 1) / 100 - y / 100) + ((y + 1) / 400 - y / 400) := by
      have := year_len_bits y
      omega
    rw [hf, decode_core y (153 + d - 1) 5 (by norm_num) (by norm_num) (by omega)
        (Or.inl (by omega)) h5]
    rw [Prod.mk.injEq, Prod.mk.injEq]
    exact ⟨by omega, by omega, by omega⟩
  · -- month 9
    norm_num [daysInMonth] at hd2
    have hf : date_tuple_to_int y 9 d
        = 365 * y + y / 4 - y / 100 + y / 400 + (184 + d - 1) := by
      simp only [date_tuple_to_int]; omega
    have h5 : 184 + d - 1 ≤ 364 + ((y + 1) / 4 - y / 4)
        - ((y + 1) / 100 - y / 100) + ((y + 1) / 400 - y / 400) := by
      have := year_len_bits y
      omega
    rw [hf, decode_core y (184 + d - 1) 6 (by norm_num) (by norm_num) (by omega)
        (Or.inl (by omega)) h5]
    rw [Prod.mk.injEq, Prod.mk.injEq]
    exact ⟨by omega, by omega, by omega⟩
  · -- month 10
    norm_num [daysInMonth] at hd2
    have hf : date_tuple_to_int y 10 d
        = 365 * y + y / 4 - y / 100 + y / 400 + (214 + d - 1) := by
      simp only [date_tuple_to_int]; omega
    have h5 : 214 + d - 1 ≤ 364 + ((y + 1) / 4 - y / 4)
        - ((y + 1) / 100 - y / 100) + ((y + 1) / 400 - y / 400) := by
      have := year_len_bits y
      omega
    rw [hf, decode_core y (214 + d - 1) 7 (by norm_num) (by norm_num) (by omega)
        (Or.inl (by omega)) h5]
    rw [Prod.mk.injEq, Prod.mk.injEq]
    exact ⟨by omega, by omega, by omega⟩
  · -- month 11
    norm_num [daysInMonth] at hd2
    have hf : date_tuple_to_int y 11 d
        = 365 * y + y / 4 - y / 100 + y / 400 + (245 + d - 1) := by
      simp only [date_tuple_to_int]; omega
    have h5 : 245 + d - 1 ≤ 364 + ((y + 1) / 4 - y / 4)
        - ((y + 1) / 100 - y / 100) + ((y + 1) / 400 - y / 400) := by
      have := year_len_bits y
      omega
    rw [hf, decode_core y (245 + d - 1) 8 (by norm_num) (by norm_num) (by omega)
        (Or.inl (by omega)) h5]
    rw [Prod.mk.injEq, Prod.mk.injEq]
    exact ⟨by omega, by omega, by omega⟩
  · -- month 12
    norm_num [daysInMonth] at hd2
    have hf : date_tuple_to_int y 12 d
        = 365 * y + y / 4 - y / 100 + y / 400 + (275 + d - 1) := by
      simp only [date_tuple_to_int]; omega
    have h5 : 275 + d - 1 ≤ 364 + ((y + 1) / 4 - y / 4)
        - ((y + 1) / 100 - y / 100) + ((y + 1) / 400 - y / 400) := by
      have := year_len_bits y
      omega
    rw [hf, decode_core y (275 + d - 1) 9 (by norm_num) (by norm_num) (by omega)
        (Or.inl (by omega)) h5]
    rw [Prod.mk.injEq, Prod.mk.injEq]
    exact ⟨by omega, by omega, by omega⟩

/-! The datetime codec packs the date count into the high 32 bits and the
millisecond-of-day into the low 32 bits; splitting them back is exact. -/

theorem datetime_roundtrip (y m d hr mi s ms : Int) (hv : validDate y m d)
    (hh : 0 ≤ hr ∧ hr < 24) (hmi : 0 ≤ mi ∧ mi < 60)
    (hs : 0 ≤ s ∧ s < 60) (hms : 0 ≤ ms ∧ ms < 1000) :
    sq_datetime_to_tuple (datetime_tuple_to_long y m d hr mi s (ms * 1000))
      = (y, m, d, hr, mi, s, ms) := by
  have hl : datetime_tuple_to_long y m d hr mi s (ms * 1000)
      = date_tuple_to_int y m d * 4294967296
        + (hr * 3600 * 1000 + mi * 60 * 1000 + s * 1000 + ms) := by
    simp only [datetime_tuple_to_long, date_tuple_to_int]
    omega
  have h1 : (date_tuple_to_int y m d * 4294967296
      + (hr * 3600 * 1000 + mi * 60 * 1000 + s * 1000 + ms)) / 4294967296
      = date_tuple_to_int y m d := by omega
  have h2 : (date_tuple_to_int y m d * 4294967296
      + (hr * 3600 * 1000 + mi * 60 * 1000 + s * 1000 + ms)) % 4294967296
      = hr * 3600 * 1000 + mi * 60 * 1000 + s * 1000 + ms := by omega
  have hdate := date_roundtrip y m d hv
  simp only [sq_datetime_to_tuple, hl, h1, h2, hdate]
  rw [Prod.mk.injEq, Prod.mk.injEq, Prod.mk.injEq, Prod.mk.injEq, Prod.mk.injEq,
    Prod.mk.injEq]
  refine ⟨rfl, rfl, rfl, by omega, by omega, by omega, by omega⟩

/-! ## Columnar codec, insert path (dbapi.py `_pack_column`, lines 380-527)

Python values flowing into a column are dynamically typed; they are modelled
by the closed `PyVal` type (the claims only exercise ints, strings, dates,
datetimes and `None`).  Byte strings are `List Nat`.  `struct.pack` with the
native little-endian format letters used by the source becomes an explicit
little-endian two's-complement encoder. -/

inductive PyVal
  | null
  | int (n : Int)
  | str (s : String)
  | date (y m d : Int)
  | datetime (y m d hr mi s micro : Int)
deriving DecidableEq

/-- Little-endian two's-complement bytes of `n` at width `w`. -/
def toLEBytes (w : Nat) (n : Int) : List Nat :=
  (List.range w).map (fun i => ((n % (2 ^ (8 * w))).toNat / 256 ^ i) % 256)

/-- UTF-8 encoding of one character. -/
def utf8Char (c : Char) : List Nat :=
  let n := c.toNat
  if n < 128 then [n]
  else if n < 2048 then [192 + n / 64, 128 + n % 64]
  else if n < 65536 then [224 + n / 4096, 128 + n / 64 % 64, 128 + n % 64]
  else [240 + n / 262144, 128 + n / 4096 % 64, 128 + n / 64 % 64, 128 + n % 64]

/-- UTF-8 encoding of a string (Python `str.encode('utf8')`). -/
def strUtf8 (s : String) : List Nat :=
  s.toList.foldr (fun c acc => utf8Char c ++ acc) []

/-- Python `str.encode('ascii')`: fails on any code point above 127. -/
def encodeAscii (s : String) : Except String (List Nat) :=
  if s.toList.all (fun c => c.toNat < 128) then
    Except.ok (s.toList.map (fun c => c.toNat))
  else Except.error "UnicodeEncodeError"

/-- Python `bytes.ljust(size, pad)`. -/
def ljust (bs : List Nat) (size : Nat) (pad : Nat) : List Nat :=
  bs ++ List.replicate (size - bs.length) pad

def joinBytes (l : List (List Nat)) : List Nat :=
  l.foldr (fun a b => a ++ b) []

/-- dbapi.py `type_to_letter` dictionary. -/
def type_to_letter (t : String) : String :=
  if t = "ftBool" then "?"
  else if t = "ftUByte" then "B"
  else if t = "ftShort" then "h"
  else if t = "ftInt" then "i"
  else if t = "ftLong" then "q"
  else if t = "ftFloat" then "f"
  else if t = "ftDouble" then "d"
  else if t = "ftDate" then "i"
  else if t = "ftDateTime" then "q"
  else "s"

/-- Python truthiness of the values `struct.pack('?', v)` accepts (any object). -/
def pyTruthy : PyVal → Bool
  | PyVal.null => false
  | PyVal.int n => n != 0
  | PyVal.str s => s != ""
  | PyVal.date _ _ _ => true
  | PyVal.datetime _ _ _ _ _ _ _ => true

/-- One `struct.pack` item for the numeric format letters used by the source.
`'?'` packs the truth value of any object; the signed letters reject values
outside the width's range and non-integers with `struct.error`.  The float
letters `'f'`/`'d'` are outside this embedding (no claim concerns float
columns), so they conservatively error. -/
def packVal (letter : String) (v : PyVal) : Except String (List Nat) :=
  if letter = "?" then Except.ok [if pyTruthy v then 1 else 0]
  else if letter = "B" then
    match v with
    | PyVal.int n => if 0 ≤ n ∧ n < 256 then Except.ok [n.toNat] else Except.error "struct_error"
    | _ => Except.error "struct_error"
  else if letter = "h" ∨ letter = "i" ∨ letter = "q" then
    let w : Nat := if letter = "h" then 2 else if letter = "i" then 4 else 8
    match v with
    | PyVal.int n =>
        if -(2 ^ (8 * w - 1)) ≤ n ∧ n < 2 ^ (8 * w - 1) then Except.ok (toLEBytes w n)
        else Except.error "struct_error"
    | _ => Except.error "struct_error"
  else Except.error "float packing not modelled"

/-- mmap slices are zero-filled: the numeric payload slice is
`capacity * size` bytes regardless of how many bytes `struct.pack` wrote. -/
def padTo (n : Nat) (bs : List Nat) : List Nat :=
  (bs ++ List.replicate (n - bs.length) 0).take n

def pack_exception_msg (col_idx : Nat) (col_type : String) : String :=
  "Trying to insert unsuitable types to column number "
    ++ toString (col_idx + 1) ++ " of type " ++ col_type

/-- dbapi.py `_pack_column` (non-numpy path).  Returns the exact bytes of
`buf_map[0:buf_idx]`: null bitmap, then nvarchar length array, then payload.
The source's mmap pre-allocation and the ftBlob buffer resize only affect
capacity, never the returned bytes, so they are not modelled. -/
def _pack_column (col : List PyVal) (col_idx : Nat) (col_type : String)
    (size : Nat) (nullable : Bool) (tvc : Bool) : Except String (List Nat) := do
  let capacity := col.length
  -- ftBlob columns are utf8-encoded up front (list comprehension, so a
  -- non-string raises AttributeError here, caught and re-raised as
  -- ProgrammingError by pack_exception)
  let encoded_col : List (List Nat) ←
    if col_type = "ftBlob" then
      col.mapM (fun v =>
        match v with
        | PyVal.str strn => Except.ok (strUtf8 strn)
        | PyVal.null => Except.ok []
        | _ => Except.error (pack_exception_msg col_idx col_type))
    else
      Except.ok []   -- encoded_col is never bound for other column types
  -- null bitmap (format f'{capacity}b', byte 1 marks a None row)
  let bitmap : List Nat :=
    if nullable then
      col.map (fun v => match v with | PyVal.null => 1 | _ => 0)
    else []
  -- nvarchar length array (format f'{capacity}i' over len() of encoded_col);
  -- for a tvc column that is not ftBlob the source would hit an unbound
  -- encoded_col (NameError)
  let lengths : List Nat ←
    if tvc then
      if col_type = "ftBlob" then do
        let ls ← encoded_col.mapM (fun e => packVal "i" (PyVal.int e.length))
        Except.ok (joinBytes ls)
      else Except.error "NameError: encoded_col"
    else Except.ok []
  -- replace Nones with placeholders and pack the payload
  if col_type = "ftBlob" then
    Except.ok (bitmap ++ lengths ++ joinBytes encoded_col)
  else if col_type = "ftVarchar" then do
    -- strn.encode(VARCHAR_ENCODING)[:size].ljust(size, b' '); None -> spaces
    let chunks : List (List Nat) ← col.mapM (fun v =>
      match v with
      | PyVal.str strn => do
          let bs ← encodeAscii strn
          Except.ok (ljust (bs.take size) size 32)
      | PyVal.null => Except.ok (ljust [] size 32)
      | _ => Except.error "AttributeError")
    Except.ok (bitmap ++ lengths ++ joinBytes chunks)
  else do
    let nums : List PyVal ←
      if col_type = "ftDate" then
        col.mapM (fun v =>
          match v with
          | PyVal.date yy mm dd => Except.ok (PyVal.int (date_tuple_to_int yy mm dd))
          | PyVal.null => Except.ok (PyVal.int (date_tuple_to_int 1900 1 1))
          | _ => Except.error "AttributeError")
      else if col_type = "ftDateTime" then
        col.mapM (fun v =>
          match v with
          | PyVal.datetime yy mm dd hh mi ss micro =>
              Except.ok (PyVal.int (datetime_tuple_to_long yy mm dd hh mi ss micro))
          | PyVal.null => Except.ok (PyVal.int (datetime_tuple_to_long 1900 1 1 0 0 0))
          | _ => Except.error "AttributeError")
      else if col_type = "ftBool" ∨ col_type = "ftUByte" ∨ col_type = "ftShort"
          ∨ col_type = "ftInt" ∨ col_type = "ftLong" ∨ col_type = "ftFloat"
          ∨ col_type = "ftDouble" then
        Except.ok (col.map (fun v => match v with | PyVal.null => PyVal.int 0 | v => v))
      else
        Except.error ("Bad column type passed: " ++ col_type)
    let packed : List (List Nat) ←
      nums.mapM (fun v =>
        match packVal (type_to_letter col_type) v with
        | Except.ok bs => Except.ok bs
        | Except.error _ => Except.error (pack_exception_msg col_idx col_type))
    Except.ok (bitmap ++ lengths ++ padTo (capacity * size) (joinBytes packed))

/-! ## Columnar codec, fetch path for bounded text
(dbapi.py `_parse_fetched_cols`, lines 770-776) -/

/-- Python `bytes.decode('ascii')`. -/
def decodeAscii (bs : List Nat) : Except String String :=
  if bs.all (fun b => b < 128) then
    Except.ok (String.mk (bs.map Char.ofNat))
  else Except.error "UnicodeDecodeError"

/-- Drop trailing characters satisfying `p` (Python `str.rstrip`). -/
def dropTrailing (p : Char → Bool) (s : String) : String :=
  String.mk ((s.toList.reverse.dropWhile p).reverse)

/-- Python default-whitespace set for `str.rstrip()`, complete below code
point 128 (space, \t, \n, \r, \x0b, \x0c and the separators \x1c-\x1f); the
decoded strings this is applied to come from `decodeAscii`, so no higher
code point can occur. -/
def pyWhitespace (c : Char) : Bool :=
  c = ' ' ∨ c = '\t' ∨ c = '\n' ∨ c.toNat = 13 ∨ c.toNat = 11 ∨ c.toNat = 12
    ∨ (28 ≤ c.toNat ∧ c.toNat ≤ 31)

/-- Python `range(0, len(l), size)` slicing: structural recursion on a fuel
bounded by the list length (each step drops at least one element, so the fuel
is never exhausted while the list is nonempty). -/
def chunksOfAux (size : Nat) : Nat → List Nat → List (List Nat)
  | _, [] => []
  | 0, _ :: _ => []
  | fuel + 1, a :: as => (a :: as).take size :: chunksOfAux size fuel ((a :: as).drop size)

def chunksOf (size : Nat) (l : List Nat) : List (List Nat) :=
  if size = 0 then [] else chunksOfAux size l.length l

/-- The ftVarchar arm of `Connection._parse_fetched_cols`: slice the payload
into `varchar_size`-byte spans, decode each in the session encoding (ascii by
default), strip trailing NULs then trailing whitespace.  A zero width faults
like Python's `range(0, len, 0)`. -/
def parse_varchar_col (varchar_size : Nat) (buf : List Nat) :
    Except String (List String) :=
  if varchar_size = 0 then Except.error "ValueError: range() arg 3 must not be zero"
  else
    (chunksOf varchar_size buf).mapM (fun chunk => do
      let s ← decodeAscii chunk
      Except.ok (dropTrailing pyWhitespace (dropTrailing (fun c => c.toNat = 0) s)))

/-! ## Transport framing (dbapi.py `SQSocket`, lines 265-304)

The socket's incoming byte stream is a `List Nat`; `receive` returns the
requested bytes and the remaining stream.  A stream shorter than the request
models the peer closing mid-message (`recv_into` returning 0). -/

/-- `SQSocket.receive(byte_num)`: exactly `byte_num` bytes or an error.
A negative count faults immediately (Python `bytearray(negative)`). -/
def receive (byte_num : Int) (stream : List Nat) :
    Except String (List Nat × List Nat) :=
  if byte_num < 0 then Except.error "ValueError"
  else if stream.length < byte_num.toNat then
    Except.error "SQreamd connection interrupted - 0 returned by socket"
  else Except.ok (stream.take byte_num.toNat, stream.drop byte_num.toNat)

/-- `unpack('q', bytes)`: little-endian 8-byte two's-complement integer. -/
def int64FromLE (bs : List Nat) : Int :=
  let u : Nat := (bs.take 8).foldr (fun b acc => acc * 256 + b) 0
  if u < 2 ^ 63 then (u : Int) else (u : Int) - 2 ^ 64

/-- `SQSocket.get_response`: read the fixed 10-byte header, check the protocol
version byte against the two supported versions, decode bytes 2..10 as the
payload length and read exactly that many payload bytes.  Returns the payload
and the remaining stream.  (The `is_text_msg` utf-8 decode step is outside
the byte-level model.) -/
def get_response (stream : List Nat) : Except String (List Nat × List Nat) :=
  match receive 10 stream with
  | Except.error e => Except.error e
  | Except.ok (header, rest) =>
    let server_protocol := header.headD 0
    if server_protocol ≠ 6 ∧ server_protocol ≠ 7 then
      Except.error ("Protocol mismatch, client version - 7, server version - "
        ++ toString server_protocol)
    else
      let message_len := int64FromLE (header.drop 2)
      receive message_len rest

/-! ## Fetch-path state machine
(dbapi.py `Connection._fetch`, `_fetch_and_parse`, `fetchmany`, `fetchone`,
lines 711-813 and 1047-1076)

A connection is a record of the fields the fetch path reads and writes.  The
server side is an oracle: `batches` lists the row batches the server would
hand back on successive fetch requests, the empty list meaning the server
reports 0 rows.  `sent` logs every control message written to the socket, so
"no network round trip" is visible as an unchanged log. -/

structure FetchConn where
  closed : Bool                      -- _verify_open flag
  open_statement : Bool
  more_to_fetch : Option Bool        -- tri-state None / True / False
  arraysize : Int                    -- FETCH_MANY_DEFAULT is 1
  parsed_rows : List (List Int)
  batches : List (List (List Int))   -- oracle: upcoming server fetch replies
  sent : List String                 -- log of control messages sent
deriving DecidableEq, Repr

/-- `Connection.close_statement`: sends the close message and clears the
open-statement flag. -/
def close_statement (c : FetchConn) : FetchConn :=
  { c with sent := c.sent ++ ["closeStatement"], open_statement := false }

/-- `Connection._fetch_and_parse` (with `_fetch` inlined), `data_as='rows'`.
The `while` loop runs while more rows are wanted and `more_to_fetch` is
truthy; each iteration sends a fetch message and reads one batch.  A batch of
0 rows closes the statement and sets `more_to_fetch` to `False`, upon which
the loop's guard fails and it exits, so that arm returns directly. -/
def fetchLoop : Nat → Int → FetchConn → FetchConn
  | 0, _, c => c
  | fuel + 1, requested, c =>
    if (requested > (c.parsed_rows.length : Int) ∨ requested = -1)
        ∧ c.more_to_fetch = some true then
      let c1 : FetchConn := { c with sent := c.sent ++ ["fetch"] }
      match c.batches with
      | [] =>
        -- server reports 0 rows: close_statement inside _fetch, then
        -- more_to_fetch := bool(0) = False and the loop exits
        { close_statement c1 with more_to_fetch := some false }
      | b :: rest =>
        if b.isEmpty then
          { close_statement { c1 with batches := rest } with more_to_fetch := some false }
        else
          fetchLoop fuel requested
            { c1 with batches := rest, more_to_fetch := some true,
                      parsed_rows := c1.parsed_rows ++ b }
    else c

def _fetch_and_parse (requested : Int) (c : FetchConn) : FetchConn :=
  -- each loop round that continues consumes one oracle batch, so a fuel of
  -- one more than the number of batches is never exhausted
  fetchLoop (c.batches.length + 1) requested c

/-- Result of `fetchmany`: a Python list of rows, a bare row, or `None`. -/
inductive FetchResult
  | rows (rs : List (List Int))
  | one (r : List Int)
  | nothing
deriving DecidableEq, Repr

/-- Python slice index resolution for `xs[0:i]` / `xs[i:]` with `i` possibly
negative. -/
def pyIdx (len : Nat) (i : Int) : Nat :=
  if 0 ≤ i then min i.toNat len else len - min (-i).toNat len

def pyTake (xs : List (List Int)) (i : Int) : List (List Int) :=
  xs.take (pyIdx xs.length i)

def pyDrop (xs : List (List Int)) (i : Int) : List (List Int) :=
  xs.drop (pyIdx xs.length i)

/-- `Connection.fetchmany(size)`, `data_as='rows'`.  `size none` is Python
`size=None`; `size = some 0` also falls back to `arraysize` because the
source uses `size = size or self.arraysize`. -/
def fetchmany (size : Option Int) (c : FetchConn) :
    Except String (FetchConn × FetchResult) :=
  let size : Int :=
    match size with
    | Option.none => c.arraysize
    | Option.some n => if n = 0 then c.arraysize else n
  if c.closed then Except.error "Cursor has been closed"
  else if c.more_to_fetch = some false then
    -- all data in the select statement was already fetched
    Except.ok (c, FetchResult.rows [])
  else if ¬ c.open_statement then
    Except.error "No open statement while attempting fetch operation"
  else
    let c := _fetch_and_parse size c
    let res := if size = -1 then c.parsed_rows else pyTake c.parsed_rows size
    let c2 := { c with parsed_rows := if size = -1 then [] else pyDrop c.parsed_rows size }
    Except.ok (c2,
      if size ≠ 1 then FetchResult.rows res
      else match res with
        | [] => FetchResult.nothing
        | r :: _ => FetchResult.one r)

/-- `Connection.fetchone()` just delegates to `fetchmany(1)`. -/
def fetchone (c : FetchConn) : Except String (FetchConn × FetchResult) :=
  fetchmany (Option.some 1) c

/-- The effective row count requested from `fetchmany`: the
`size = size or self.arraysize` defaulting sends both `None` and `0` to the
cursor's `arraysize` (the same resolution `fetchmany` performs internally). -/
def effective_size (size : Option Int) (arraysize : Int) : Int :=
  match size with
  | Option.none => arraysize
  | Option.some n => if n = 0 then arraysize else n

/-! ## Insert-path event trace
(dbapi.py `Connection.executemany`, lines 1011-1045)

`executemany` first runs `execute(query)` — a full network exchange — and
only then validates that the row/column sequences have consistent lengths.
The trace model records each socket write and each raised exception in
order. -/

inductive Ev
  | send (msg : String)   -- a JSON control message written to the socket
  | sendData              -- binary header plus packed column bytes written
  | err (msg : String)    -- exception raised, aborting the call
deriving DecidableEq, Repr

/-- Control messages `execute_sqream_statement` sends for an insert statement
(no load-balancer redirect): statement id, prepare, execute, and the
query-type probe that comes back non-empty for an insert. -/
def executeEv : List Ev :=
  [Ev.send "getStatementId", Ev.send "prepareStatement",
   Ev.send "execute", Ev.send "queryTypeIn"]

def ROWS_PER_FLUSH : Nat := 100000

/-- The `while self.cols != [()]` flush loop: each round takes a
`rows_per_flush` slice of every column and `_send_columns` sends the put
message plus the binary data.  (On a column list the source would index with
`col_chunk[0]`; the empty-column-list arm that would raise IndexError is
returned as an empty trace here, it is unreachable for insert statements,
which have at least one column.) -/
def insertLoopEv (cols : List (List Int)) : List Ev :=
  if cols = [[]] then []
  else
    match cols with
    | [] => []
    | c :: rest =>
      if h2 : (c.take ROWS_PER_FLUSH).length = 0 then []
      else
        [Ev.send "put", Ev.sendData]
          ++ insertLoopEv ((c :: rest).map (fun col => col.drop ROWS_PER_FLUSH))
termination_by (cols.headD []).length
decreasing_by
  simp only [List.map_cons, List.headD_cons, List.length_drop, List.length_take,
    ROWS_PER_FLUSH] at *
  omega

/-- `len(set(len(row_or_col) for row_or_col in rows_or_cols)) > 1`. -/
def lengthsMismatch (rows_or_cols : List (List Int)) : Bool :=
  ((rows_or_cols.map List.length).dedup).length > 1

/-- Event trace of `Connection.executemany(query, rows_or_cols)` in
`data_as='rows'` mode (`Option.none` models passing no data).  The length
consistency check happens only after `execute` has already exchanged the
prepare/execute control messages with the server. -/
def executemanyEv (rows_or_cols : Option (List (List Int))) : List Ev :=
  executeEv ++
    match rows_or_cols with
    | Option.none => []
    | Option.some roc =>
      if lengthsMismatch roc then
        [Ev.err "Incosistent data sequences passed for inserting"]
      else
        insertLoopEv roc.transpose ++ [Ev.send "closeStatement"]

def isErr : Ev → Bool
  | Ev.err _ => true
  | _ => false

def isSend : Ev → Bool
  | Ev.send _ => true
  | Ev.sendData => true
  | _ => false

/-- A send of actual column data: the put message or the binary payload. -/
def isDataSend : Ev → Bool
  | Ev.sendData => true
  | Ev.send "put" => true
  | _ => false

/-- The trace raises an error and nothing is written to the socket before the
error; this is C3's "fails before any network send occurs". -/
def failsBeforeAnySend (t : List Ev) : Prop :=
  t.any isErr = true
    ∧ (t.takeWhile (fun e => ! isErr e)).all (fun e => ! isSend e) = true

instance (t : List Ev) : Decidable (failsBeforeAnySend t) := by
  unfold failsBeforeAnySend; infer_instance

/-! ## connect() argument validation (dbapi.py lines 1156-1162)

`Option.none` stands for a Python value that is not an `int` (so
`isinstance(x, int)` is false); `some n` for the integer `n`. -/

def connect_validation (reconnect_attempts reconnect_interval : Option Int) :
    Except String Unit :=
  if reconnect_attempts.isNone ∨ reconnect_attempts.getD 0 < 0 then
    Except.error "reconnect attempts should be a positive integer"
  -- the second condition repeats `reconnect_attempts < 0` (source line 1161),
  -- so a negative reconnect_interval is never caught
  else if reconnect_interval.isNone ∨ reconnect_attempts.getD 0 < 0 then
    Except.error "reconnect interval should be a positive integer"
  else Except.ok ()

/-! Helper lemmas for the fetch-path claims. -/

theorem pyTake_one_cons (r : List Int) (rs : List (List Int)) :
    pyTake (r :: rs) 1 = [r] := by
  simp [pyTake, pyIdx]

theorem pyTake_nil (i : Int) : pyTake [] i = [] := by
  simp [pyTake]

/-- The happy path of `fetchmany`: not closed, not exhausted, statement open.
After the `size or arraysize` defaulting (`effective_size`), the returned
state drops the rows handed out and the result is a list, a bare row or
`None` according to the effective size. -/
theorem fetchmany_ok (c : FetchConn) (size : Option Int) (hclosed : c.closed = false)
    (h1 : c.more_to_fetch ≠ some false) (hopen : c.open_statement = true) :
    fetchmany size c = Except.ok
      ({ _fetch_and_parse (effective_size size c.arraysize) c with
          parsed_rows := if effective_size size c.arraysize = -1 then []
            else pyDrop (_fetch_and_parse (effective_size size c.arraysize) c).parsed_rows
              (effective_size size c.arraysize) },
       if effective_size size c.arraysize ≠ 1 then
         FetchResult.rows (if effective_size size c.arraysize = -1
           then (_fetch_and_parse (effective_size size c.arraysize) c).parsed_rows
           else pyTake (_fetch_and_parse (effective_size size c.arraysize) c).parsed_rows
             (effective_size size c.arraysize))
       else
         match pyTake (_fetch_and_parse (effective_size size c.arraysize) c).parsed_rows 1 with
         | [] => FetchResult.nothing
         | r :: _ => FetchResult.one r) := by
  cases size with
  | none =>
    by_cases ha : c.arraysize = 1
    · simp [fetchmany, effective_size, hclosed, h1, hopen, ha]
    · simp [fetchmany, effective_size, hclosed, h1, hopen, ha]
  | some n =>
    by_cases h0 : n = 0
    · subst h0
      by_cases ha : c.arraysize = 1
      · simp [fetchmany, effective_size, hclosed, h1, hopen, ha]
      · simp [fetchmany, effective_size, hclosed, h1, hopen, ha]
    · by_cases hone : n = 1
      · subst hone
        simp [fetchmany, effective_size, hclosed, h1, hopen]
      · simp [fetchmany, effective_size, hclosed, h1, hopen, h0, hone]

/-! ## Claims -/

/-- C1: for every valid Gregorian date (y, m, d) with year between 1 and 9999,
decoding the encoded day count gives back the same date:
`sq_date_to_tuple (date_tuple_to_int y m d) = (y, m, d)`; the round-trip is
exact. -/
theorem claim_C1 (y m d : Int) (h : validDate y m d) :
    sq_date_to_tuple (date_tuple_to_int y m d) = (y, m, d) :=
  date_roundtrip y m d h

theorem claim_C1_witness :
    validDate 2024 2 29 ∧ sq_date_to_tuple (date_tuple_to_int 2024 2 29) = (2024, 2, 29) :=
  ⟨by decide, claim_C1 2024 2 29 (by decide)⟩

/-- C2: for every valid (y, m, d, h, mi, s, ms) with year in [1, 9999],
0 ≤ h < 24, 0 ≤ mi < 60, 0 ≤ s < 60, 0 ≤ ms < 1000, decoding the packed long
gives back the same components, the long holding the date-int in the high 32
bits and the milliseconds-of-day in the low 32 bits. -/
theorem claim_C2 (y m d hr mi s ms : Int) (hv : validDate y m d)
    (hh : 0 ≤ hr ∧ hr < 24) (hmi : 0 ≤ mi ∧ mi < 60)
    (hs : 0 ≤ s ∧ s < 60) (hms : 0 ≤ ms ∧ ms < 1000) :
    sq_datetime_to_tuple (datetime_tuple_to_long y m d hr mi s (ms * 1000))
      = (y, m, d, hr, mi, s, ms) :=
  datetime_roundtrip y m d hr mi s ms hv hh hmi hs hms

theorem claim_C2_witness :
    validDate 2021 7 14
    ∧ sq_datetime_to_tuple (datetime_tuple_to_long 2021 7 14 13 5 6 (789 * 1000))
      = (2021, 7, 14, 13, 5, 6, 789) :=
  ⟨by decide,
   claim_C2 2021 7 14 13 5 6 789 (by decide) (by decide) (by decide) (by decide) (by decide)⟩

/-- C3 counterexample: the claim says a mismatched insert batch "fails with a
usage error before any network send occurs", but `executemany` calls
`execute(query)` — which exchanges the prepare/execute control messages with
the server — before it validates the batch lengths, so sends precede the
`ProgrammingError` on the concrete mismatched batch `[[1,2,3],[4,5,6,7]]`. -/
theorem claim_C3_counterexample :
    lengthsMismatch [[1, 2, 3], [4, 5, 6, 7]] = true
    ∧ ¬ failsBeforeAnySend (executemanyEv (Option.some [[1, 2, 3], [4, 5, 6, 7]])) :=
  ⟨rfl, by decide⟩

/-- C3 (amended): for every insert call whose batch contains sequences of
unequal lengths, the call fails with a `ProgrammingError` after the statement
has been prepared and executed but before any row data is packed or sent: the
trace ends at the error and never contains the put message or any binary
column payload. -/
theorem claim_C3_amended (roc : List (List Int)) (h : lengthsMismatch roc = true) :
    executemanyEv (Option.some roc)
      = executeEv ++ [Ev.err "Incosistent data sequences passed for inserting"]
    ∧ (executemanyEv (Option.some roc)).all (fun e => ! isDataSend e) = true := by
  have h1 : executemanyEv (Option.some roc)
      = executeEv ++ [Ev.err "Incosistent data sequences passed for inserting"] := by
    simp [executemanyEv, h]
  exact ⟨h1, by rw [h1]; rfl⟩

theorem claim_C3_witness :
    lengthsMismatch [[1, 2], [3, 4, 5]] = true
    ∧ executemanyEv (Option.some [[1, 2], [3, 4, 5]])
      = executeEv ++ [Ev.err "Incosistent data sequences passed for inserting"]
    ∧ (executemanyEv (Option.some [[1, 2], [3, 4, 5]])).all (fun e => ! isDataSend e) = true :=
  ⟨rfl, (claim_C3_amended [[1, 2], [3, 4, 5]] rfl).1,
    (claim_C3_amended [[1, 2], [3, 4, 5]] rfl).2⟩

/-- C4: once a fetch batch reports 0 rows (first oracle reply is an empty
batch or the oracle is exhausted), the statement is closed (close message
sent, open flag cleared) and `more_to_fetch` becomes false; and
`more_to_fetch = false` is terminal: the fetch loop does not run again and
every subsequent `fetchmany` returns the empty list with the connection state
— in particular the log of sent messages — unchanged, i.e. without a new
network round trip. -/
theorem claim_C4 (c : FetchConn) (req size : Int) :
    (c.more_to_fetch = some true →
      (req > (c.parsed_rows.length : Int) ∨ req = -1) →
      c.batches.headD [] = [] →
      (_fetch_and_parse req c).more_to_fetch = some false
        ∧ (_fetch_and_parse req c).open_statement = false
        ∧ (_fetch_and_parse req c).sent = c.sent ++ ["fetch", "closeStatement"])
    ∧ (c.more_to_fetch = some false → _fetch_and_parse req c = c)
    ∧ (c.more_to_fetch = some false → c.closed = false →
      fetchmany (Option.some size) c = Except.ok (c, FetchResult.rows [])) := by
  refine ⟨fun h1 h2 h3 => ?_, fun h1 => ?_, fun h1 h2 => ?_⟩
  · unfold _fetch_and_parse
    cases hb : c.batches with
    | nil => simp [fetchLoop, hb, h1, h2, close_statement]
    | cons b rest =>
      have hbe : b = [] := by simpa [hb] using h3
      simp [fetchLoop, hb, hbe, h1, h2, close_statement]
  · unfold _fetch_and_parse
    cases c.batches <;> simp [fetchLoop, h1]
  · simp [fetchmany, h1, h2]

theorem claim_C4_witness :
    ((_fetch_and_parse 1 ⟨false, true, some true, 1, [], [], []⟩).more_to_fetch = some false
      ∧ (_fetch_and_parse 1 ⟨false, true, some true, 1, [], [], []⟩).open_statement = false
      ∧ (_fetch_and_parse 1 ⟨false, true, some true, 1, [], [], []⟩).sent
          = [] ++ ["fetch", "closeStatement"])
    ∧ _fetch_and_parse 1 ⟨false, true, some false, 1, [], [], []⟩
        = ⟨false, true, some false, 1, [], [], []⟩
    ∧ fetchmany (Option.some 2) ⟨false, true, some false, 1, [], [], []⟩
        = Except.ok (⟨false, true, some false, 1, [], [], []⟩, FetchResult.rows []) :=
  ⟨(claim_C4 ⟨false, true, some true, 1, [], [], []⟩ 1 2).1 rfl (Or.inl (by norm_num)) rfl,
   (claim_C4 ⟨false, true, some false, 1, [], [], []⟩ 1 2).2.1 rfl,
   (claim_C4 ⟨false, true, some false, 1, [], [], []⟩ 1 2).2.2 rfl rfl⟩

/-- C5: packing a nullable Int column [1, None, 3] with byte_width 4 yields
the 3-byte null bitmap [0, 1, 0] followed by the 4-byte little-endian
encodings of 1, 0, 3 (None replaced by the zero placeholder), 15 bytes in
total with no trailing slack. -/
theorem claim_C5 :
    _pack_column [PyVal.int 1, PyVal.null, PyVal.int 3] 0 "ftInt" 4 true false
      = Except.ok [0, 1, 0, 1, 0, 0, 0, 0, 0, 0, 0, 3, 0, 0, 0]
    ∧ ([0, 1, 0, 1, 0, 0, 0, 0, 0, 0, 0, 3, 0, 0, 0] : List Nat).length = 3 + 3 * 4 :=
  ⟨rfl, rfl⟩

/-- C6: packing a variable-text column ["x", "", None] produces the 4-byte
signed-integer length array [1, 0, 0] followed by exactly the 1 payload byte
of "x"; null and empty-string rows both get length 0 and no payload bytes,
so with a nullable descriptor they differ only in the leading null bitmap
[0, 0, 1]. -/
theorem claim_C6 :
    _pack_column [PyVal.str "x", PyVal.str "", PyVal.null] 0 "ftBlob" 0 false true
      = Except.ok [1, 0, 0, 0, 0, 0, 0, 0, 0, 0, 0, 0, 120]
    ∧ _pack_column [PyVal.str "x", PyVal.str "", PyVal.null] 0 "ftBlob" 0 true true
      = Except.ok ([0, 0, 1] ++ [1, 0, 0, 0, 0, 0, 0, 0, 0, 0, 0, 0, 120]) :=
  ⟨rfl, rfl⟩

/-- C7: packing a bounded-text column of width 5 with value "ab" yields
exactly the 5 bytes "ab   " (encoded, truncated to the width, right-padded
with spaces), and parsing that payload back with the same width yields "ab"
(trailing NULs and whitespace stripped): the round trip recovers the value. -/
theorem claim_C7 :
    _pack_column [PyVal.str "ab"] 0 "ftVarchar" 5 false false
      = Except.ok [97, 98, 32, 32, 32]
    ∧ parse_varchar_col 5 [97, 98, 32, 32, 32] = Except.ok ["ab"] :=
  ⟨rfl, rfl⟩

/-- C8: reading a response, byte 0 of the 10-byte header must be 6 or 7
(the current protocol version and one prior) or a protocol-mismatch error is
signalled; otherwise bytes 2..10 are decoded as an 8-byte signed
little-endian payload length and exactly that many payload bytes are read. -/
theorem claim_C8 (stream : List Nat) (h10 : 10 ≤ stream.length) :
    ((stream.headD 0 ≠ 6 ∧ stream.headD 0 ≠ 7) →
      get_response stream
        = Except.error ("Protocol mismatch, client version - 7, server version - "
            ++ toString (stream.headD 0)))
    ∧ ((stream.headD 0 = 6 ∨ stream.headD 0 = 7) →
      ∀ L : Int, int64FromLE ((stream.take 10).drop 2) = L → 0 ≤ L →
        L.toNat + 10 ≤ stream.length →
        get_response stream
          = Except.ok ((stream.drop 10).take L.toNat, (stream.drop 10).drop L.toNat)) := by
  have hrecv : receive 10 stream = Except.ok (stream.take 10, stream.drop 10) := by
    simp only [receive]
    rw [if_neg (by norm_num), if_neg (by simp; omega)]
    rfl
  have hhead : (stream.take 10).headD 0 = stream.headD 0 := by
    cases stream <;> simp
  constructor
  · intro h
    unfold get_response
    rw [hrecv]
    simp only [hhead]
    rw [if_pos h]
  · intro h L hL hL0 hlen
    unfold get_response
    rw [hrecv]
    simp only [hhead]
    rw [if_neg (by omega)]
    rw [hL]
    simp only [receive]
    rw [if_neg (by omega), if_neg (by simp; omega)]

theorem claim_C8_witness :
    get_response [7, 1, 2, 0, 0, 0, 0, 0, 0, 0, 65, 66] = Except.ok ([65, 66], [])
    ∧ get_response [5, 1, 2, 0, 0, 0, 0, 0, 0, 0]
      = Except.error "Protocol mismatch, client version - 7, server version - 5" :=
  ⟨(claim_C8 [7, 1, 2, 0, 0, 0, 0, 0, 0, 0, 65, 66] (by norm_num)).2
      (Or.inr rfl) 2 rfl (by norm_num) (by decide),
   (claim_C8 [5, 1, 2, 0, 0, 0, 0, 0, 0, 0] (by norm_num)).1 (by norm_num)⟩

/-- C9 counterexample: the claim says that for every size other than 1 a list
of rows is returned, but `size = size or self.arraysize` sends `size = 0` to
the default `arraysize = 1`, so `fetchmany(0)` on a statement with one
available row returns the bare row, not a list. -/
theorem claim_C9_counterexample :
    fetchmany (Option.some 0) ⟨false, true, some true, 1, [], [[[42]]], []⟩
      = Except.ok (⟨false, true, some true, 1, [], [], ["fetch"]⟩, FetchResult.one [42]) :=
  rfl

/-- C9 (amended): on a non-exhausted open statement, for every raw `size`
argument (including `None` and `0`) and every `arraysize`, when the effective
value after the `size or arraysize` defaulting (size 0 and None fall back to
arraysize, default 1) is 1 — so also for `fetchone` — `fetchmany` returns the
single row itself when a row is available and `None` when no row is
available, rather than a list; when the effective value is not 1 a list of
rows is returned; and once `more_to_fetch` is false the empty list is
returned for every size. -/
theorem claim_C9_amended (c : FetchConn) (size : Option Int)
    (hclosed : c.closed = false) (hopen : c.open_statement = true) :
    (c.more_to_fetch = some false →
      fetchmany size c = Except.ok (c, FetchResult.rows []))
    ∧ (c.more_to_fetch ≠ some false →
      (effective_size size c.arraysize = 1 →
        (∀ r rs, (_fetch_and_parse 1 c).parsed_rows = r :: rs →
          (fetchmany size c).map Prod.snd = Except.ok (FetchResult.one r))
        ∧ ((_fetch_and_parse 1 c).parsed_rows = [] →
          (fetchmany size c).map Prod.snd = Except.ok FetchResult.nothing))
      ∧ (effective_size size c.arraysize ≠ 1 →
        (fetchmany size c).map Prod.snd = Except.ok (FetchResult.rows
          (if effective_size size c.arraysize = -1
           then (_fetch_and_parse (effective_size size c.arraysize) c).parsed_rows
           else pyTake (_fetch_and_parse (effective_size size c.arraysize) c).parsed_rows
             (effective_size size c.arraysize)))))
    ∧ fetchone c = fetchmany (Option.some 1) c := by
  refine ⟨fun h1 => ?_, fun h1 => ⟨fun heff => ⟨fun r rs hr => ?_, fun hr => ?_⟩,
    fun hne => ?_⟩, rfl⟩
  · cases size with
    | none => simp [fetchmany, h1, hclosed]
    | some n => simp [fetchmany, h1, hclosed]
  · have heq := fetchmany_ok c size hclosed h1 hopen
    rw [heff, hr] at heq
    norm_num [pyTake_one_cons] at heq
    rw [heq]
    rfl
  · have heq := fetchmany_ok c size hclosed h1 hopen
    rw [heff, hr] at heq
    norm_num [pyTake_nil] at heq
    rw [heq]
    rfl
  · have heq := fetchmany_ok c size hclosed h1 hopen
    rw [if_pos hne] at heq
    rw [heq]
    rfl

theorem claim_C9_witness :
    (fetchmany (Option.some 1) ⟨false, true, some true, 1, [], [[[42]]], []⟩).map Prod.snd
      = Except.ok (FetchResult.one [42])
    ∧ (fetchmany Option.none ⟨false, true, some true, 5, [], [[[42]]], []⟩).map Prod.snd
      = Except.ok (FetchResult.rows [[42]])
    ∧ (fetchmany (Option.some 0) ⟨false, true, some true, 5, [], [[[42]]], []⟩).map Prod.snd
      = Except.ok (FetchResult.rows [[42]])
    ∧ fetchmany Option.none ⟨false, true, some false, 1, [], [], []⟩
      = Except.ok (⟨false, true, some false, 1, [], [], []⟩, FetchResult.rows [])
    ∧ fetchone ⟨false, true, some true, 1, [], [[[42]]], []⟩
      = fetchmany (Option.some 1) ⟨false, true, some true, 1, [], [[[42]]], []⟩ :=
  ⟨(((claim_C9_amended ⟨false, true, some true, 1, [], [[[42]]], []⟩ (Option.some 1)
      rfl rfl).2.1 (by decide)).1 rfl).1 [42] [] rfl,
   (((claim_C9_amended ⟨false, true, some true, 5, [], [[[42]]], []⟩ Option.none
      rfl rfl).2.1 (by decide)).2 (by decide)),
   (((claim_C9_amended ⟨false, true, some true, 5, [], [[[42]]], []⟩ (Option.some 0)
      rfl rfl).2.1 (by decide)).2 (by decide)),
   (claim_C9_amended ⟨false, true, some false, 1, [], [], []⟩ Option.none rfl rfl).1 rfl,
   (claim_C9_amended ⟨false, true, some true, 1, [], [[[42]]], []⟩ (Option.some 1)
      rfl rfl).2.2⟩

/-- C10: connect raises an error for a non-integer (`Option.none`) or
negative reconnect_attempts and for a non-integer reconnect_interval, but a
negative integer reconnect_interval is accepted without error, because the
negativity test of the second validation reads reconnect_attempts instead of
reconnect_interval. -/
theorem claim_C10 (ra ri : Int) (x : Option Int) :
    connect_validation Option.none x
      = Except.error "reconnect attempts should be a positive integer"
    ∧ (ra < 0 → connect_validation (Option.some ra) x
      = Except.error "reconnect attempts should be a positive integer")
    ∧ (0 ≤ ra → connect_validation (Option.some ra) Option.none
      = Except.error "reconnect interval should be a positive integer")
    ∧ (0 ≤ ra → connect_validation (Option.some ra) (Option.some ri)
      = Except.ok ()) := by
  refine ⟨rfl, fun hneg => ?_, fun hpos => ?_, fun hpos => ?_⟩
  · unfold connect_validation
    rw [if_pos (by simp; omega)]
  · unfold connect_validation
    rw [if_neg (by simp; omega), if_pos (by simp)]
  · unfold connect_validation
    rw [if_neg (by simp; omega), if_neg (by simp; omega)]

theorem claim_C10_witness :
    connect_validation Option.none (Option.some 5)
      = Except.error "reconnect attempts should be a positive integer"
    ∧ connect_validation (Option.some (-1)) (Option.some 5)
      = Except.error "reconnect attempts should be a positive integer"
    ∧ connect_validation (Option.some 3) Option.none
      = Except.error "reconnect interval should be a positive integer"
    ∧ connect_validation (Option.some 3) (Option.some (-5)) = Except.ok () :=
  ⟨(claim_C10 0 0 (Option.some 5)).1,
   (claim_C10 (-1) 0 (Option.some 5)).2.1 (by norm_num),
   (claim_C10 3 0 Option.none).2.2.1 (by norm_num),
   (claim_C10 3 (-5) Option.none).2.2.2 (by norm_num)⟩
